import Mathlib

/-!
Verification of the DeepChem tutorial notebooks: the Pong reinforcement-learning
notebook (class PongEnv, class PongPolicy, the A2C demonstration play loop) and
the molecular-fingerprint notebook (Tox21 MultitaskClassifier cells).

NumPy arrays are embedded as nested lists: a raw Atari frame is a list of rows,
each row a list of pixels, each pixel a list of colour-channel values.
-/

namespace DeepchemNb

/-- A raw frame held in `self._state`: rows of pixels, each pixel a list of
colour channels (uint8 values, embedded as naturals). -/
abbrev Frame := List (List (List ℕ))

/-- The standard Pong screen shape `(210, 160, 3)` as a predicate on the nested
list embedding: 210 rows, every row 160 pixels, every pixel 3 channels. -/
def frameShapeOk (f : Frame) : Prop :=
  f.length = 210 ∧ ∀ row ∈ f, row.length = 160 ∧ ∀ px ∈ row, px.length = 3

/-- NumPy slice `[34:194]` on the row axis: `cropped = np.array(self._state)[34:194, :, :]`. -/
def cropFrame (f : Frame) : Frame := (f.drop 34).take 160

/-- Elements at even indices of a list (step-2 stride starting at 0). -/
def everySecond : List α → List α
  | [] => []
  | [a] => [a]
  | a :: _ :: rest => a :: everySecond rest

/-- NumPy stride slice `[0:-1:2]`: indices 0, 2, 4, ... strictly below `length - 1`. -/
def slice021 (l : List α) : List α := everySecond l.dropLast

/-- `reduced = cropped[0:-1:2, 0:-1:2]`: stride-2 slice on rows, then on columns. -/
def reduceFrame (f : Frame) : Frame := (slice021 f).map slice021

/-- `grayscale = np.sum(reduced, axis=2)`: sum the colour channels of each pixel. -/
def grayscaleFrame (f : Frame) : List (List ℕ) :=
  f.map (fun row => row.map (fun px => px.sum))

/-- `bw = np.zeros(grayscale.shape); bw[grayscale != 233] = 1`: elementwise,
entries whose channel sum differs from 233 become 1, the rest stay 0. -/
def bwFrame (g : List (List ℕ)) : List (List ℕ) :=
  g.map (fun row => row.map (fun x => if x ≠ 233 then 1 else 0))

/-- The `PongEnv.state` property: crop, stride-2 reduce, channel sum, binarize. -/
def pongState (f : Frame) : List (List ℕ) :=
  bwFrame (grayscaleFrame (reduceFrame (cropFrame f)))

/-- `self._state_shape = (80, 80)` set in `PongEnv.__init__`. -/
def state_shape : ℕ × ℕ := (80, 80)

/-- The pixel (list of channel values) of frame `f` at row `i`, column `j`
(empty list when out of range). -/
def pixelAt (f : Frame) (i j : ℕ) : List ℕ := (f.getD i []).getD j []

/-- The sum of the colour channels of the pixel of `f` at row `i`, column `j`. -/
def chanSum (f : Frame) (i j : ℕ) : ℕ := (pixelAt f i j).sum

/-- Entry `(i, j)` of a 2-D array embedded as a list of rows (0 when out of range). -/
def entryAt (g : List (List ℕ)) (i j : ℕ) : ℕ := (g.getD i []).getD j 0

/-- Index-level description of the state transform: an 80 × 80 array whose
`(i, j)` entry is 1 exactly when the channel sum of the source pixel at row
`34 + 2*i`, column `2*j` differs from 233. -/
def stateSpecIdx (f : Frame) : List (List ℕ) :=
  (List.range 80).map (fun i => (List.range 80).map (fun j =>
    if chanSum f (34 + 2 * i) (2 * j) ≠ 233 then 1 else 0))

/-- The state transform the spec sentence describes for `PongEnv.state`: crop,
stride-2 reduce and channel combination only, with no further processing. -/
def stateSpecGrayOnly (f : Frame) : List (List ℕ) :=
  grayscaleFrame (reduceFrame (cropFrame f))

/-- An all-black raw frame of the standard Pong screen shape `(210, 160, 3)`. -/
def zeroFrame : Frame :=
  List.replicate 210 (List.replicate 160 (List.replicate 3 0))

/-- Bounds-checked shape test for the boolean-mask assignment
`bw[grayscale != 233] = 1`: the mask must have a row for every row of the
target and matching row lengths. -/
def maskShapeOk (bw : List (List ℕ)) (mask : List (List Bool)) : Bool :=
  (mask.length == bw.length) &&
    ((List.zip bw mask).all (fun p => p.2.length == p.1.length))

/-- Bounds-checked boolean-mask assignment: set the masked entries of `bw` to
`v`, or fail when the mask does not conform to `bw`. -/
def maskSet (bw : List (List ℕ)) (mask : List (List Bool)) (v : ℕ) :
    Option (List (List ℕ)) :=
  if maskShapeOk bw mask then
    some (List.zipWith (fun r m =>
      List.zipWith (fun x b => if b then v else x) r m) bw mask)
  else none

/-- `np.zeros(grayscale.shape)` for a 2-D array embedded as a list of rows. -/
def zerosLike (g : List (List ℕ)) : List (List ℕ) :=
  g.map (fun r => r.map (fun _ => 0))

/-- Bounds-checked grayscale stage of `PongEnv.state`: every row access
`34 + 2*i`, column access `2*j` and colour-channel access performed by the
crop, the stride-2 slices and the axis-2 sum, done through `getElem?`. -/
def grayChecked (f : Frame) : Option (List (List ℕ)) :=
  (List.range 80).mapM (fun i => do
    let row ← f[34 + 2 * i]?
    (List.range 80).mapM (fun j => do
      let px ← row[2 * j]?
      let c0 ← px[0]?
      let c1 ← px[1]?
      let c2 ← px[2]?
      pure (c0 + c1 + c2)))

/-- Bounds-checked `PongEnv.state`: checked grayscale stage followed by the
checked boolean-mask assignment into the zero array. -/
def pongStateChecked (f : Frame) : Option (List (List ℕ)) := do
  let g ← grayChecked f
  maskSet (zerosLike g) (g.map (fun r => r.map (fun x => x != 233))) 1

/-- Abstract runtime state of the wrapped gym environment: the raw frame and
the `terminated` flag; stepping itself is performed by the external library. -/
structure GymState where
  frame : Frame
  terminated : Bool
deriving DecidableEq

/-- The observable operations of the demonstration play-loop cell:
`env.reset()`, `env.env.render()` and `env.step(action)`. -/
inductive PlayEvent where
  | reset
  | render
  | stepAction (a : ℕ)
deriving DecidableEq

/-- One iteration's successor state: `env.step(a2c.select_action(env.state))`,
with the external `env.step` and `a2c.select_action` taken as parameters. -/
def nextState (stepFn : GymState → ℕ → GymState) (select : List (List ℕ) → ℕ)
    (s : GymState) : GymState := stepFn s (select (pongState s.frame))

/-- The loop `while not env.terminated: env.env.render();
env.step(a2c.select_action(env.state))`, run with explicit fuel; returns the
trace of events and the final state. -/
def playLoop (stepFn : GymState → ℕ → GymState) (select : List (List ℕ) → ℕ) :
    ℕ → GymState → List PlayEvent × GymState
  | 0, s => ([], s)
  | fuel + 1, s =>
    if s.terminated then ([], s)
    else
      let a := select (pongState s.frame)
      let rest := playLoop stepFn select fuel (stepFn s a)
      (PlayEvent.render :: PlayEvent.stepAction a :: rest.1, rest.2)

/-- The whole demonstration cell: `env.reset()` first, then the while loop,
where `s0` is the state `env.reset()` leaves the environment in. -/
def playDemo (stepFn : GymState → ℕ → GymState) (select : List (List ℕ) → ℕ)
    (fuel : ℕ) (s0 : GymState) : List PlayEvent × GymState :=
  (PlayEvent.reset :: (playLoop stepFn select fuel s0).1,
    (playLoop stepFn select fuel s0).2)

/-- The state reached after `k` loop iterations. -/
def visit (stepFn : GymState → ℕ → GymState) (select : List (List ℕ) → ℕ) :
    ℕ → GymState → GymState
  | 0, s => s
  | k + 1, s => visit stepFn select k (nextState stepFn select s)

/-- Number of iterations the loop performs: it stops at the first terminated
state, or when the fuel runs out. -/
def stopIdx (stepFn : GymState → ℕ → GymState) (select : List (List ℕ) → ℕ) :
    ℕ → GymState → ℕ
  | 0, _ => 0
  | fuel + 1, s =>
    if s.terminated then 0
    else stopIdx stepFn select fuel (nextState stepFn select s) + 1

/-- Runtime data of a `PongEnv` instance: the `_state_shape` attribute, the
current raw frame and the terminated flag, the last two owned by the wrapped
gym environment. -/
structure PongEnvData where
  stateShapeAttr : ℕ × ℕ
  currentFrame : Frame
  terminated : Bool
deriving DecidableEq

/-- `PongEnv()`: `__init__` wraps a freshly created gym environment and sets
`self._state_shape = (80, 80)`; the fresh gym-internal runtime state is
abstracted as the empty frame, not terminated. -/
def pongEnvNew : PongEnvData := ⟨(80, 80), [], false⟩

/-- `PongEnv.__deepcopy__(self, memo): return PongEnv()`. -/
def deepcopyPongEnv {M : Type} (_self : PongEnvData) (_memo : M) : PongEnvData :=
  pongEnvNew

/-- Activation functions named by the policy model cell. -/
inductive Act where
  | relu
  | softmax
  | linear
deriving DecidableEq

/-- The Keras layer expressions built by `PongPolicy.create_model`, embedded as
a symbolic term graph (shapes are written as in the source; `-1` is the
wildcard dimension of `Reshape((-1, 256))`). -/
inductive Layer where
  | inputL (name : String) (shape : List ℤ)
  | reshape (shape : List ℤ) (x : Layer)
  | conv2d (filters kernelSize strides : ℕ) (act : Act) (x : Layer)
  | dense (units : ℕ) (act : Act) (x : Layer)
  | flatten (x : Layer)
  | gruSeq (units : ℕ) (x initSt : Layer)
  | gruFinal (units : ℕ) (x initSt : Layer)
  | concat2 (a b : Layer)
deriving DecidableEq

/-- `state = Input(shape=(80, 80))`. -/
def stateInput : Layer := Layer.inputL "state" [80, 80]

/-- `rnn_state = Input(shape=(16,))`. -/
def rnnStateInput : Layer := Layer.inputL "rnn_state" [16]

/-- `conv1 = Conv2D(16, kernel_size=8, strides=4, relu)(Reshape((80,80,1))(state))`. -/
def conv1 : Layer := Layer.conv2d 16 8 4 Act.relu (Layer.reshape [80, 80, 1] stateInput)

/-- `conv2 = Conv2D(32, kernel_size=4, strides=2, relu)(conv1)`. -/
def conv2 : Layer := Layer.conv2d 32 4 2 Act.relu conv1

/-- `dense = Dense(256, relu)(Flatten()(conv2))`. -/
def denseLayer : Layer := Layer.dense 256 Act.relu (Layer.flatten conv2)

/-- `gru, rnn_final_state = GRU(16, return_state=True, ...)(Reshape((-1, 256))(dense),
initial_state=rnn_state)`: the sequence output. -/
def gruSeqOut : Layer := Layer.gruSeq 16 (Layer.reshape [-1, 256] denseLayer) rnnStateInput

/-- The final-state output of the same GRU application. -/
def gruFinalOut : Layer := Layer.gruFinal 16 (Layer.reshape [-1, 256] denseLayer) rnnStateInput

/-- `concat = Concatenate()([dense, Reshape((16,))(gru)])`. -/
def concatOut : Layer := Layer.concat2 denseLayer (Layer.reshape [16] gruSeqOut)

/-- `action_prob = Dense(env.n_actions, softmax)(concat)`. -/
def actionProb (nActions : ℕ) : Layer := Layer.dense nActions Act.softmax concatOut

/-- `value = Dense(1)(concat)`. -/
def valueOut : Layer := Layer.dense 1 Act.linear concatOut

/-- `tf.keras.Model(inputs=[state, rnn_state], outputs=[action_prob, value,
rnn_final_state])` as a pair (inputs, outputs). -/
def createModel (nActions : ℕ) : List Layer × List Layer :=
  ([stateInput, rnnStateInput], [actionProb nActions, valueOut, gruFinalOut])

/-- `super(PongPolicy, self).__init__(['action_prob', 'value', 'rnn_state'],
[np.zeros(16)])`: the declared output names. -/
def pongPolicyOutputNames : List String := ["action_prob", "value", "rnn_state"]

/-- The declared initial recurrent states, `[np.zeros(16)]`. -/
def pongPolicyInitialStates : List (List ℚ) := [List.replicate 16 0]

/-- `model.fit(train_dataset, nb_epoch=10)` in the fingerprint notebook. -/
def nbEpoch : ℕ := 10

/-- `metric = dc.metrics.Metric(dc.metrics.roc_auc_score)`. -/
def metricName : String := "roc_auc_score"

/-- The training-set score printed in the recorded run. -/
def recordedTrainScore : ℚ := 0.9550063590563469

/-- The test-set score printed in the recorded run. -/
def recordedTestScore : ℚ := 0.7781819573695475

/-- `MultitaskClassifier(n_tasks=12, n_features=1024, layer_sizes=[1000])`. -/
def multitaskNTasks : ℕ := 12

/-- The `n_features` argument of the `MultitaskClassifier` call. -/
def multitaskNFeatures : ℕ := 1024

/-- The `layer_sizes` argument of the `MultitaskClassifier` call. -/
def multitaskLayerSizes : List ℕ := [1000]

/-- The printed `X.shape` of the Tox21 training split, `(6264, 1024)`. -/
def trainXShape : ℕ × ℕ := (6264, 1024)

/-- The printed `y.shape` of the Tox21 training split, `(6264, 12)`. -/
def trainYShape : ℕ × ℕ := (6264, 12)

theorem everySecond_getElem? : ∀ (l : List α) (i : ℕ), (everySecond l)[i]? = l[2 * i]?
  | [], i => by simp [everySecond]
  | [a], 0 => by simp [everySecond]
  | [a], n + 1 => by
    have h2 : (1 : ℕ) ≤ 2 * (n + 1) := by omega
    simp [everySecond, List.getElem?_eq_none (l := [a]) (by simpa using h2)]
  | a :: b :: rest, 0 => by simp [everySecond]
  | a :: b :: rest, n + 1 => by
    have ih := everySecond_getElem? rest n
    have h2 : 2 * (n + 1) = 2 * n + 1 + 1 := by omega
    simp [everySecond, h2, ih]

theorem everySecond_length : ∀ (l : List α), (everySecond l).length = (l.length + 1) / 2
  | [] => by simp [everySecond]
  | [a] => by simp [everySecond]
  | a :: b :: rest => by
    have ih := everySecond_length rest
    simp [everySecond, ih]
    omega

theorem slice021_getElem? (l : List α) (i : ℕ) :
    (slice021 l)[i]? = if 2 * i < l.length - 1 then l[2 * i]? else none := by
  unfold slice021
  rw [everySecond_getElem?, List.getElem?_dropLast]

theorem slice021_length (l : List α) : (slice021 l).length = l.length / 2 := by
  unfold slice021
  rw [everySecond_length, List.length_dropLast]
  omega

theorem zeroFrame_shapeOk : frameShapeOk zeroFrame := by
  constructor
  · exact List.length_replicate 210 _
  · intro row hrow
    have hr := List.eq_of_mem_replicate hrow
    subst hr
    constructor
    · exact List.length_replicate 160 _
    · intro px hpx
      have hp := List.eq_of_mem_replicate hpx
      subst hp
      exact List.length_replicate 3 _

theorem cropFrame_length (f : Frame) (hlen : f.length = 210) :
    (cropFrame f).length = 160 := by
  simp [cropFrame, hlen]

theorem cropFrame_getElem? (f : Frame) (i : ℕ) (hi : i < 160) :
    (cropFrame f)[i]? = f[34 + i]? := by
  unfold cropFrame
  rw [List.getElem?_take_of_lt hi, List.getElem?_drop]

/-- Core characterization: under the standard screen shape, `PongEnv.state`
is the 80 × 80 indicator array of `stateSpecIdx`. -/
theorem pongState_eq_spec (f : Frame) (h : frameShapeOk f) :
    pongState f = stateSpecIdx f := by
  obtain ⟨hlen, hrows⟩ := h
  have hclen : (cropFrame f).length = 160 := cropFrame_length f hlen
  apply List.ext_getElem?
  intro i
  unfold pongState bwFrame grayscaleFrame reduceFrame stateSpecIdx
  simp only [List.getElem?_map]
  rw [slice021_getElem?, hclen]
  by_cases hi : i < 80
  · have h2i : 2 * i < 160 - 1 := by omega
    rw [if_pos h2i, List.getElem?_range hi,
      cropFrame_getElem? f (2 * i) (by omega)]
    have hlt : 34 + 2 * i < f.length := by omega
    rw [List.getElem?_eq_getElem hlt]
    obtain ⟨hrlen, hpx⟩ := hrows (f[34 + 2 * i]) (List.getElem_mem hlt)
    simp only [Option.map_some']
    congr 1
    apply List.ext_getElem?
    intro j
    simp only [List.getElem?_map]
    rw [slice021_getElem?, hrlen]
    by_cases hj : j < 80
    · have h2j : 2 * j < 160 - 1 := by omega
      rw [if_pos h2j, List.getElem?_range hj]
      have hjlt : 2 * j < (f[34 + 2 * i]).length := by omega
      rw [List.getElem?_eq_getElem hjlt]
      simp only [Option.map_some']
      have hcs : chanSum f (34 + 2 * i) (2 * j) = ((f[34 + 2 * i])[2 * j]).sum := by
        unfold chanSum pixelAt
        simp only [List.getD_eq_getElem?_getD]
        rw [List.getElem?_eq_getElem hlt]
        simp only [Option.getD_some]
        rw [List.getElem?_eq_getElem hjlt, Option.getD_some]
      rw [hcs]
    · have h2j : ¬ 2 * j < 160 - 1 := by omega
      rw [if_neg h2j,
        List.getElem?_eq_none (by rw [List.length_range]; omega)]
      simp
  · have h2i : ¬ 2 * i < 160 - 1 := by omega
    rw [if_neg h2i,
      List.getElem?_eq_none (by rw [List.length_range]; omega)]
    simp

/-- C1 counterexample: `PongEnv.state` does not return the channel-combined
grayscale array unprocessed; at the all-black standard frame the code's result
differs from the crop/reduce/grayscale-only transform described by the claim
(the code additionally binarizes against 233). -/
theorem pong_state_ne_gray_only :
    pongState zeroFrame ≠ stateSpecGrayOnly zeroFrame := by
  intro hEq
  have h1 : entryAt (pongState zeroFrame) 0 0 = 1 := by rfl
  have h0 : entryAt (stateSpecGrayOnly zeroFrame) 0 0 = 0 := by rfl
  rw [hEq, h0] at h1
  exact absurd h1 (by decide)

/-- C1 (amended): `PongEnv.state` crops the frame to rows 34 through 193, keeps
every second row and every second column of the crop, combines the colour
channels of each kept pixel by summing them, and then binarizes: the returned
80 × 80 array holds 1 where that channel sum differs from 233 and 0 where it
equals 233. -/
theorem pong_state_crop_reduce_gray_binarize (f : Frame) (h : frameShapeOk f) :
    pongState f = (List.range 80).map (fun i => (List.range 80).map (fun j =>
      if chanSum f (34 + 2 * i) (2 * j) ≠ 233 then 1 else 0)) :=
  pongState_eq_spec f h

/-- Witness for the amended C1 at the all-black standard frame. -/
theorem pong_state_crop_reduce_gray_binarize_witness :
    frameShapeOk zeroFrame ∧
      pongState zeroFrame = (List.range 80).map (fun i => (List.range 80).map
        (fun j => if chanSum zeroFrame (34 + 2 * i) (2 * j) ≠ 233 then 1 else 0)) :=
  ⟨zeroFrame_shapeOk, pong_state_crop_reduce_gray_binarize zeroFrame zeroFrame_shapeOk⟩

/-- C2: on a raw frame of the standard Pong screen shape `(210, 160, 3)`,
`PongEnv.state` returns an array of shape `(80, 80)`, equal to the
`_state_shape` attribute set in `PongEnv.__init__`. -/
theorem pong_state_shape (f : Frame) (h : frameShapeOk f) :
    (pongState f).length = state_shape.1 ∧
      ∀ row ∈ pongState f, row.length = state_shape.2 := by
  rw [pongState_eq_spec f h]
  constructor
  · simp [stateSpecIdx, state_shape]
  · intro row hrow
    simp only [stateSpecIdx, List.mem_map] at hrow
    obtain ⟨i, hi, hrw⟩ := hrow
    rw [← hrw]
    simp [state_shape]

/-- Witness for C2 at the all-black standard frame. -/
theorem pong_state_shape_witness :
    frameShapeOk zeroFrame ∧ (pongState zeroFrame).length = state_shape.1 ∧
      (List.replicate 80 (1 : ℕ)).length = state_shape.2 :=
  ⟨zeroFrame_shapeOk, (pong_state_shape zeroFrame zeroFrame_shapeOk).1,
    (pong_state_shape zeroFrame zeroFrame_shapeOk).2 (List.replicate 80 1)
      (List.getElem?_mem (n := 0) (by rfl))⟩

/-- C8: every element of the array returned by `PongEnv.state` is 0 or 1, and
under the standard screen shape the entry at `(i, j)` is 1 exactly when the
channel sum of the cropped and downsampled pixel differs from 233 and 0 exactly
when that sum equals 233. -/
theorem pong_state_binary (f : Frame) :
    (∀ row ∈ pongState f, ∀ x ∈ row, x = 0 ∨ x = 1) ∧
    (frameShapeOk f → ∀ i j, i < 80 → j < 80 →
      ((entryAt (pongState f) i j = 1 ↔ chanSum f (34 + 2 * i) (2 * j) ≠ 233) ∧
       (entryAt (pongState f) i j = 0 ↔ chanSum f (34 + 2 * i) (2 * j) = 233))) := by
  constructor
  · intro row hrow x hx
    unfold pongState bwFrame at hrow
    simp only [List.mem_map] at hrow
    obtain ⟨r, hr, hrw⟩ := hrow
    rw [← hrw] at hx
    simp only [List.mem_map] at hx
    obtain ⟨y, hy, hxw⟩ := hx
    rw [← hxw]
    by_cases hy233 : y ≠ 233 <;> simp [hy233]
  · intro h i j hi hj
    rw [pongState_eq_spec f h]
    have hA : entryAt (stateSpecIdx f) i j =
        if chanSum f (34 + 2 * i) (2 * j) ≠ 233 then 1 else 0 := by
      unfold entryAt stateSpecIdx
      simp only [List.getD_eq_getElem?_getD, List.getElem?_map,
        List.getElem?_range hi, List.getElem?_range hj, Option.map_some',
        Option.getD_some]
    rw [hA]
    by_cases hc : chanSum f (34 + 2 * i) (2 * j) = 233 <;> simp [hc]

/-- Witness for C8 at the all-black standard frame. -/
theorem pong_state_binary_witness :
    ((1 : ℕ) = 0 ∨ (1 : ℕ) = 1) ∧
    ((entryAt (pongState zeroFrame) 0 0 = 1 ↔ chanSum zeroFrame 34 0 ≠ 233) ∧
     (entryAt (pongState zeroFrame) 0 0 = 0 ↔ chanSum zeroFrame 34 0 = 233)) := by
  constructor
  · exact (pong_state_binary zeroFrame).1 (List.replicate 80 1)
      (List.getElem?_mem (n := 0) (by rfl)) 1 (List.mem_replicate.2 ⟨by decide, rfl⟩)
  · have h := (pong_state_binary zeroFrame).2 zeroFrame_shapeOk 0 0
      (by decide) (by decide)
    simpa using h

theorem chanSum_eq_sum (f : Frame) (i j : ℕ) (hi : i < f.length)
    (hj : j < (f[i]).length) : chanSum f i j = (f[i][j]).sum := by
  unfold chanSum pixelAt
  simp only [List.getD_eq_getElem?_getD]
  rw [List.getElem?_eq_getElem hi]
  simp only [Option.getD_some]
  rw [List.getElem?_eq_getElem hj, Option.getD_some]

theorem mapM_option_congr {α β : Type} (l : List α) (F : α → Option β)
    (G : α → β) (h : ∀ a ∈ l, F a = some (G a)) : l.mapM F = some (l.map G) := by
  induction l with
  | nil => rfl
  | cons a t ih =>
    have ha := h a (List.mem_cons_self a t)
    have ht : t.mapM F = some (t.map G) :=
      ih (fun b hb => h b (List.mem_cons_of_mem a hb))
    rw [List.mapM_cons, ha, ht]
    rfl

theorem grayChecked_eq (f : Frame) (h : frameShapeOk f) :
    grayChecked f = some ((List.range 80).map (fun i => (List.range 80).map
      (fun j => chanSum f (34 + 2 * i) (2 * j)))) := by
  obtain ⟨hlen, hrows⟩ := h
  unfold grayChecked
  apply mapM_option_congr
  intro i hi
  have hi80 : i < 80 := List.mem_range.1 hi
  have hlt : 34 + 2 * i < f.length := by omega
  rw [List.getElem?_eq_getElem hlt]
  obtain ⟨hrlen, hpx⟩ := hrows (f[34 + 2 * i]) (List.getElem_mem hlt)
  simp only [Option.bind_eq_bind, Option.some_bind]
  apply mapM_option_congr
  intro j hj
  have hj80 : j < 80 := List.mem_range.1 hj
  have hjlt : 2 * j < (f[34 + 2 * i]).length := by omega
  rw [List.getElem?_eq_getElem hjlt]
  simp only [Option.bind_eq_bind, Option.some_bind]
  have hpl : (f[34 + 2 * i][2 * j]).length = 3 := hpx _ (List.getElem_mem hjlt)
  obtain ⟨a, b, c, habc⟩ := List.length_eq_three.1 hpl
  have hcs := chanSum_eq_sum f (34 + 2 * i) (2 * j) hlt hjlt
  rw [habc] at hcs
  rw [habc, hcs]
  show some (a + b + c) = some ([a, b, c].sum)
  simp only [Option.some.injEq, List.sum_cons, List.sum_nil]
  omega

theorem maskShapeOk_zeros (g : List (List ℕ)) (P : ℕ → Bool) :
    maskShapeOk (zerosLike g) (g.map (fun r => r.map P)) = true := by
  unfold maskShapeOk zerosLike
  rw [List.zip_map']
  simp [List.all_map, Function.comp]

theorem maskRow (r : List ℕ) (P : ℕ → Bool) (v : ℕ) :
    List.zipWith (fun x b => if b then v else x) (r.map (fun _ => 0)) (r.map P)
      = r.map (fun x => if P x then v else 0) := by
  rw [List.zipWith_map, List.zipWith_same]

theorem maskSet_zeros_mask (g : List (List ℕ)) (P : ℕ → Bool) (v : ℕ) :
    maskSet (zerosLike g) (g.map (fun r => r.map P)) v =
      some (g.map (fun r => r.map (fun x => if P x then v else 0))) := by
  unfold maskSet
  rw [if_pos (maskShapeOk_zeros g P)]
  unfold zerosLike
  rw [List.zipWith_map, List.zipWith_same]
  simp only [maskRow]

theorem indicator_bne (x v : ℕ) :
    (if x != 233 then v else 0) = if x ≠ 233 then v else 0 := by
  by_cases hx : x = 233 <;> simp [hx]

/-- C10: under the standard screen shape `(210, 160, 3)`, every array access
performed by `PongEnv.state` (crop row index, stride-2 row and column indices,
the three colour-channel accesses of the axis-2 sum, and the boolean-mask
assignment into the zero array) is in bounds: the bounds-checked embedding
succeeds and returns exactly the unchecked result. -/
theorem pong_state_checked_total (f : Frame) (h : frameShapeOk f) :
    pongStateChecked f = some (pongState f) := by
  unfold pongStateChecked
  rw [grayChecked_eq f h]
  simp only [Option.bind_eq_bind, Option.some_bind]
  rw [maskSet_zeros_mask]
  rw [pongState_eq_spec f h]
  unfold stateSpecIdx
  simp only [List.map_map, Function.comp_def, indicator_bne]

/-- Witness for C10 at the all-black standard frame. -/
theorem pong_state_checked_total_witness :
    frameShapeOk zeroFrame ∧ pongStateChecked zeroFrame = some (pongState zeroFrame) :=
  ⟨zeroFrame_shapeOk, pong_state_checked_total zeroFrame zeroFrame_shapeOk⟩

theorem visit_succ (stepFn : GymState → ℕ → GymState)
    (select : List (List ℕ) → ℕ) (k : ℕ) (s : GymState) :
    visit stepFn select (k + 1) s =
      visit stepFn select k (nextState stepFn select s) := rfl

theorem playLoop_trace (stepFn : GymState → ℕ → GymState)
    (select : List (List ℕ) → ℕ) : ∀ (fuel : ℕ) (s : GymState),
    (playLoop stepFn select fuel s).1 =
      (List.range (stopIdx stepFn select fuel s)).flatMap
        (fun k => [PlayEvent.render,
          PlayEvent.stepAction (select (pongState (visit stepFn select k s).frame))])
  | 0, s => by simp [playLoop, stopIdx]
  | fuel + 1, s => by
    cases hs : s.terminated with
    | true => simp [playLoop, stopIdx, hs]
    | false =>
      have ih := playLoop_trace stepFn select fuel (nextState stepFn select s)
      simp only [playLoop, stopIdx, hs, Bool.false_eq_true, if_false,
        List.range_succ_eq_map, List.flatMap_cons, List.flatMap_map]
      rw [show stepFn s (select (pongState s.frame)) =
        nextState stepFn select s from rfl, ih]
      simp only [visit, visit_succ]
      rfl

theorem stopIdx_not_terminated (stepFn : GymState → ℕ → GymState)
    (select : List (List ℕ) → ℕ) : ∀ (fuel k : ℕ) (s : GymState),
    k < stopIdx stepFn select fuel s → (visit stepFn select k s).terminated = false
  | 0, k, s => by simp [stopIdx]
  | fuel + 1, k, s => by
    cases hs : s.terminated with
    | true => simp [stopIdx, hs]
    | false =>
      cases k with
      | zero => intro _; simpa [visit] using hs
      | succ n =>
        intro hk
        have hn : n < stopIdx stepFn select fuel (nextState stepFn select s) := by
          simp only [stopIdx, hs, Bool.false_eq_true, if_false] at hk
          omega
        exact stopIdx_not_terminated stepFn select fuel n (nextState stepFn select s) hn

theorem stopIdx_terminated (stepFn : GymState → ℕ → GymState)
    (select : List (List ℕ) → ℕ) (fuel : ℕ) (s : GymState)
    (hs : s.terminated = true) : stopIdx stepFn select fuel s = 0 := by
  cases fuel with
  | zero => rfl
  | succ n => simp [stopIdx, hs]

/-- C5: the demonstration cell resets the environment first, then the loop's
trace is exactly one render followed by one step per iteration, each step's
action being `select_action` applied to the transformed state current at that
iteration; the loop only runs iterations whose state is not terminated, and if
the state after reset is already terminated nothing is rendered or stepped. -/
theorem play_demo_spec (stepFn : GymState → ℕ → GymState)
    (select : List (List ℕ) → ℕ) (fuel : ℕ) (s0 : GymState) :
    (playDemo stepFn select fuel s0).1 =
      PlayEvent.reset :: (List.range (stopIdx stepFn select fuel s0)).flatMap
        (fun k => [PlayEvent.render,
          PlayEvent.stepAction (select (pongState (visit stepFn select k s0).frame))]) ∧
    (∀ k, k < stopIdx stepFn select fuel s0 →
      (visit stepFn select k s0).terminated = false) ∧
    (s0.terminated = true → (playDemo stepFn select fuel s0).1 = [PlayEvent.reset]) := by
  refine ⟨?_, ?_, ?_⟩
  · unfold playDemo
    rw [playLoop_trace stepFn select fuel s0]
  · intro k hk
    exact stopIdx_not_terminated stepFn select fuel k s0 hk
  · intro hs
    unfold playDemo
    rw [playLoop_trace stepFn select fuel s0, stopIdx_terminated stepFn select fuel s0 hs]
    rfl

/-- Witness for C5: a one-step environment that terminates after the first
step, with fuel 2 and a non-terminated start state. -/
theorem play_demo_spec_witness :
    (playDemo (fun s _ => ⟨s.frame, true⟩) (fun _ => 0) 2 ⟨[], false⟩).1 =
      [PlayEvent.reset, PlayEvent.render, PlayEvent.stepAction 0] ∧
    (visit (fun s _ => ⟨s.frame, true⟩) (fun _ => 0) 0 ⟨[], false⟩).terminated = false := by
  have h := play_demo_spec (fun s _ => ⟨s.frame, true⟩) (fun _ => 0) 2 ⟨[], false⟩
  refine ⟨?_, h.2.1 0 (by decide)⟩
  rw [h.1]
  decide

/-- C9: `__deepcopy__` returns a freshly constructed `PongEnv()` whatever the
original's runtime state and whatever the memo argument, so deep copies of two
differently-advanced environments are identical. -/
theorem deepcopy_returns_fresh_env {M₁ M₂ : Type} (e₁ e₂ : PongEnvData)
    (m₁ : M₁) (m₂ : M₂) :
    deepcopyPongEnv e₁ m₁ = pongEnvNew ∧
    deepcopyPongEnv e₁ m₁ = deepcopyPongEnv e₂ m₂ ∧
    (deepcopyPongEnv e₁ m₁).currentFrame = pongEnvNew.currentFrame ∧
    (deepcopyPongEnv e₁ m₁).terminated = pongEnvNew.terminated :=
  ⟨rfl, rfl, rfl, rfl⟩

/-- C3: `PongPolicy` declares exactly the output names
`['action_prob', 'value', 'rnn_state']` and a single initial recurrent state,
the zero vector of length 16; `create_model` returns, in order, a softmax
distribution over `env.n_actions` actions, a width-1 value head, and the final
state of a width-16 GRU whose initial state is the `rnn_state` input of shape
`(16,)`. -/
theorem pong_policy_decl (n : ℕ) :
    pongPolicyOutputNames = ["action_prob", "value", "rnn_state"] ∧
    pongPolicyInitialStates.length = 1 ∧
    (pongPolicyInitialStates.getD 0 []).length = 16 ∧
    (pongPolicyInitialStates.getD 0 []).all (fun x => x == 0) = true ∧
    (createModel n).2 =
      [Layer.dense n Act.softmax concatOut,
       Layer.dense 1 Act.linear concatOut,
       Layer.gruFinal 16 (Layer.reshape [-1, 256] denseLayer) rnnStateInput] ∧
    rnnStateInput = Layer.inputL "rnn_state" [16] := by
  refine ⟨rfl, rfl, by simp [pongPolicyInitialStates], by decide, rfl, rfl⟩

/-- C4: in the recorded run the model is fitted for 10 epochs, evaluated with
the `roc_auc_score` metric, and the printed scores are 0.9550063590563469 on
the training set (≈ 0.955) and 0.7781819573695475 on the test set (≈ 0.778). -/
theorem fingerprint_recorded_scores :
    nbEpoch = 10 ∧ metricName = "roc_auc_score" ∧
    recordedTrainScore = 9550063590563469 / 10 ^ 16 ∧
    recordedTestScore = 7781819573695475 / 10 ^ 16 ∧
    955 / 1000 ≤ recordedTrainScore ∧ recordedTrainScore < 956 / 1000 ∧
    778 / 1000 ≤ recordedTestScore ∧ recordedTestScore < 779 / 1000 := by
  refine ⟨rfl, rfl, ?_, ?_, ?_, ?_, ?_, ?_⟩ <;>
    norm_num [recordedTrainScore, recordedTestScore]

/-- C6: the fingerprint notebook's calls are mutually consistent:
`n_features = 1024` equals the fingerprint length (second component of
`X.shape`), `n_tasks = 12` equals the task count (second component of
`y.shape`), and the two splits describe the same 6264 samples. -/
theorem fingerprint_calls_consistent :
    multitaskNFeatures = 1024 ∧ multitaskNTasks = 12 ∧
    multitaskNFeatures = trainXShape.2 ∧
    multitaskNTasks = trainYShape.2 ∧
    trainXShape = (6264, 1024) ∧ trainYShape = (6264, 12) ∧
    trainXShape.1 = trainYShape.1 := by
  refine ⟨rfl, rfl, rfl, rfl, rfl, rfl, rfl⟩

end DeepchemNb
